import Mathlib

/-!
# SlimDX: `GraphicsStream` and `Direct3D10.EffectScalarVariable`

A shallow embedding of `source/GraphicsStream.h` and
`source/direct3d10/EffectScalarVariable.cpp`.

* A managed object is a Lean structure; a method takes the object and returns
  the object after the call.  A method that can throw returns `Except`.
* `Int64` and `int` values are integers; an `Int64` result of an addition is
  reduced with `wrapInt64`.
* The raw memory behind `char* m_Buffer` is a map from byte offsets (relative
  to the pointer) to bytes.  The stream stores no length, so the map is total:
  a write past the caller's region changes memory outside that region.
* Method bodies that live in `GraphicsStream.cpp` (the constructor, `Close`,
  `Seek` and the three out-of-line `Write` overloads) are not part of the
  sources; they are modelled from the specification and marked as such.
-/

namespace SlimDX

/-! ## Machine values -/

/-- One byte of raw memory. -/
abbrev Byte := Fin 256

/-- Smallest `Int64` value. -/
def Int64.MinValue : Int := -9223372036854775808

/-- Largest `Int64` value. -/
def Int64.MaxValue : Int := 9223372036854775807

/-- Two's-complement reduction of an integer to the `Int64` range
(the result of 64-bit signed arithmetic). -/
def wrapInt64 (x : Int) : Int :=
  (x + 9223372036854775808) % 18446744073709551616 - 9223372036854775808

/-- Enumeration `System::IO::SeekOrigin`. -/
inductive SeekOrigin where
  | Begin
  | Current
  | End
  deriving DecidableEq, Repr

/-- Exceptions thrown by the stream. -/
inductive Exception where
  | NotSupportedException
  deriving DecidableEq, Repr

/-! ## Raw memory -/

/-- Raw memory seen from a base pointer: `mem k` is the byte at `base + k`. -/
abbrev Memory := Int → Byte

/-- Copy of the bytes `src` to the addresses `dst, dst + 1, ...` of `mem`,
one byte after the other (`memcpy`). -/
def copyBytes (mem : Memory) (dst : Int) : List Byte → Memory
  | [] => mem
  | x :: xs => copyBytes (Function.update mem dst x) (dst + 1) xs

/-! ## GraphicsStream -/

/-- The class `GraphicsStream` (GraphicsStream.h, lines 29-105).
The fields `m_Buffer`, `m_Position`, `m_CanRead` and `m_CanWrite` are the
private fields of the class.  `m_Buffer` is the memory seen from the pointer.

Modelled from the spec: the field `closed`.  The class declares no such field;
the specification gives the stream the states Open and Closed and has `Close`
mark the stream closed. -/
structure GraphicsStream where
  m_Buffer : Memory
  m_Position : Int
  m_CanRead : Bool
  m_CanWrite : Bool
  closed : Bool

/-- The `where T : value class` constraint of the generic writes: a type of
fixed size `sizeOf` with a raw representation of exactly that many bytes. -/
structure ValueClass (T : Type) where
  sizeOf : Nat
  raw : T → List Byte
  raw_length : ∀ v : T, (raw v).length = sizeOf

namespace GraphicsStream

/-- Modelled from the spec: the constructor
`GraphicsStream( void* buffer, bool canRead, bool canWrite )`, whose body is in
GraphicsStream.cpp.  "Binds to the given buffer; sets capability flags;
initializes cursor to 0." -/
def ctor (buffer : Memory) (canRead canWrite : Bool) : GraphicsStream :=
  { m_Buffer := buffer
    m_Position := 0
    m_CanRead := canRead
    m_CanWrite := canWrite
    closed := false }

/-- Modelled from the spec: `Close()`, whose body is in GraphicsStream.cpp.
"Releases any resources the stream itself owns (none, beyond marking itself
closed); does not free the underlying buffer." -/
def Close (s : GraphicsStream) : GraphicsStream :=
  { s with closed := true }

/-- Modelled from the spec: `Seek( Int64 offset, SeekOrigin origin )`, whose
body is in GraphicsStream.cpp.  "Recomputes the cursor from Begin/Current/End;
End is unsupported because length is unknown, so any origin requiring a known
length fails with an unsupported-operation error.  Moving the cursor does not
touch memory; it only updates the logical position."  The returned `Int64` is
the new cursor, as for every `Stream.Seek`. -/
def Seek (s : GraphicsStream) (offset : Int) (origin : SeekOrigin) :
    Except Exception (Int × GraphicsStream) :=
  match origin with
  | .Begin =>
    let s' := { s with m_Position := offset }
    .ok (s'.m_Position, s')
  | .Current =>
    let s' := { s with m_Position := wrapInt64 (s.m_Position + offset) }
    .ok (s'.m_Position, s')
  | .End => .error .NotSupportedException

/-- Modelled from the spec: `Write( array<Byte>^ buffer, int offset, int count )`,
whose body is in GraphicsStream.cpp.  "Copies count bytes from the given source
array (starting at offset) into the buffer at the current cursor, then advances
the cursor by count.  No bounds check against a buffer length is performed."
The specification says nothing about a range that leaves the source array; the
slice taken here stops at the end of the array, and a negative `offset` or
`count` counts as 0 for the slice. -/
def Write (s : GraphicsStream) (buffer : List Byte) (offset count : Int) :
    GraphicsStream :=
  let src := (buffer.drop offset.toNat).take count.toNat
  { s with
    m_Buffer := copyBytes s.m_Buffer s.m_Position src
    m_Position := wrapInt64 (s.m_Position + count) }

/-- Modelled from the spec: the generic `Write( T value )`, whose body is in
GraphicsStream.cpp.  "Writes a single fixed-size value directly into the buffer
at the cursor, advancing the cursor by sizeof(T)." -/
def Write_value {T : Type} (vt : ValueClass T) (s : GraphicsStream) (value : T) :
    GraphicsStream :=
  { s with
    m_Buffer := copyBytes s.m_Buffer s.m_Position (vt.raw value)
    m_Position := wrapInt64 (s.m_Position + vt.sizeOf) }

/-- Modelled from the spec: the generic
`Write( array<T>^ data, int startIndex, int count )`, whose body is in
GraphicsStream.cpp.  "Writes a contiguous run of fixed-size values directly
into the buffer at the cursor, advancing the cursor by sizeof(T) * count."
As for `Write`, the run taken from `data` stops at the end of the array. -/
def Write_range {T : Type} (vt : ValueClass T) (s : GraphicsStream)
    (data : List T) (startIndex count : Int) : GraphicsStream :=
  let run := (data.drop startIndex.toNat).take count.toNat
  { s with
    m_Buffer := copyBytes s.m_Buffer s.m_Position (run.map vt.raw).flatten
    m_Position := wrapInt64 (s.m_Position + vt.sizeOf * count) }

/-- The generic `Write( array<T>^ data ) { Write( data, 0, 0 ); }`
(GraphicsStream.h, line 55). -/
def Write_data {T : Type} (vt : ValueClass T) (s : GraphicsStream)
    (data : List T) : GraphicsStream :=
  Write_range vt s data 0 0

/-- The method `Read( array<Byte>^ buffer, int offset, int count ) { return 0; }`
(GraphicsStream.h, line 58).  The result is the returned count, the destination
array after the call and the stream after the call. -/
def Read (s : GraphicsStream) (buffer : List Byte) (_offset _count : Int) :
    Int × List Byte × GraphicsStream :=
  (0, buffer, s)

/-- The method `Flush() { throw gcnew NotSupportedException(); }`
(GraphicsStream.h, lines 63-66). -/
def Flush (_s : GraphicsStream) : Except Exception (Unit × GraphicsStream) :=
  .error .NotSupportedException

/-- The method `SetLength( Int64 value ) { throw gcnew NotSupportedException(); }`
(GraphicsStream.h, lines 68-71). -/
def SetLength (_s : GraphicsStream) (_value : Int) :
    Except Exception (Unit × GraphicsStream) :=
  .error .NotSupportedException

/-- The getter `CanRead::get() { return m_CanRead; }` (GraphicsStream.h, line 75). -/
def CanRead (s : GraphicsStream) : Bool := s.m_CanRead

/-- The getter `CanSeek::get() { return true; }` (GraphicsStream.h, line 80). -/
def CanSeek (_s : GraphicsStream) : Bool := true

/-- The getter `CanWrite::get() { return m_CanWrite; }` (GraphicsStream.h, line 85). -/
def CanWrite (s : GraphicsStream) : Bool := s.m_CanWrite

/-- The getter `Length::get() { throw gcnew NotSupportedException(); }`
(GraphicsStream.h, line 90). -/
def Length (_s : GraphicsStream) : Except Exception (Int × GraphicsStream) :=
  .error .NotSupportedException

/-- The getter `Position::get() { return m_Position; }`
(GraphicsStream.h, lines 95-98). -/
def Position_get (s : GraphicsStream) : Int := s.m_Position

/-- The setter `Position::set( Int64 value ) { Seek( value, SeekOrigin::Begin ); }`
(GraphicsStream.h, lines 100-103): the value returned by `Seek` is dropped and
an exception of `Seek` propagates. -/
def Position_set (s : GraphicsStream) (value : Int) :
    Except Exception (Unit × GraphicsStream) :=
  match Seek s value .Begin with
  | .ok (_, s') => .ok ((), s')
  | .error e => .error e

/-- The stream object after a call: the object a normal return leaves, and the
object as it was when the call threw (each throwing method above throws before
it assigns any field). -/
def stateAfter {α : Type} (s : GraphicsStream) :
    Except Exception (α × GraphicsStream) → GraphicsStream
  | .ok (_, s') => s'
  | .error _ => s

/-- One call on a stream: every public member of the class. -/
inductive Op : Type 1 where
  | Close
  | Seek (offset : Int) (origin : SeekOrigin)
  | Write (buffer : List Byte) (offset count : Int)
  | Write_value {T : Type} (vt : ValueClass T) (value : T)
  | Write_range {T : Type} (vt : ValueClass T) (data : List T) (startIndex count : Int)
  | Write_data {T : Type} (vt : ValueClass T) (data : List T)
  | Read (buffer : List Byte) (offset count : Int)
  | Flush
  | SetLength (value : Int)
  | CanRead
  | CanSeek
  | CanWrite
  | Length
  | Position_get
  | Position_set (value : Int)

/-- The stream object after the call `op`. -/
def exec (s : GraphicsStream) : Op → GraphicsStream
  | .Close => s.Close
  | .Seek offset origin => stateAfter s (s.Seek offset origin)
  | .Write buffer offset count => s.Write buffer offset count
  | .Write_value vt value => s.Write_value vt value
  | .Write_range vt data startIndex count => s.Write_range vt data startIndex count
  | .Write_data vt data => s.Write_data vt data
  | .Read buffer offset count => (s.Read buffer offset count).2.2
  | .Flush => stateAfter s s.Flush
  | .SetLength value => stateAfter s (s.SetLength value)
  | .CanRead => s
  | .CanSeek => s
  | .CanWrite => s
  | .Length => stateAfter s s.Length
  | .Position_get => s
  | .Position_set value => stateAfter s (s.Position_set value)

/-- The stream object after a sequence of calls, first call first. -/
def run (s : GraphicsStream) (ops : List Op) : GraphicsStream :=
  ops.foldl exec s

end GraphicsStream

/-! ## Direct3D10.EffectScalarVariable -/

namespace Direct3D10

/-- Status code `HRESULT` returned by a native call. -/
abbrev HRESULT := Int

/-- The native interface `ID3D10EffectScalarVariable` of d3d10.h, as far as
`EffectScalarVariable::Set` uses it.  The header belongs to the platform SDK,
so the three entry points are parameters: each takes the state `σ` of the
native effect and the value, and returns the status code and the state after
the call.  `F` is the type of `float` values, which are only passed on. -/
structure ID3D10EffectScalarVariable (σ : Type) (F : Type) where
  SetBool : σ → Bool → HRESULT × σ
  SetFloat : σ → F → HRESULT × σ
  SetInt : σ → Int → HRESULT × σ

/-- Modelled from the spec: the type `Result`, declared in a header that is not
part of the sources.  "A structured result (success/failure + code)." -/
structure Result where
  Code : HRESULT
  deriving DecidableEq, Repr

/-- Modelled from the spec: the success flag of a `Result`.  A status code
reports success when it is not negative (the `HRESULT` convention). -/
def Result.IsSuccess (r : Result) : Bool := decide (0 ≤ r.Code)

/-- Modelled from the spec: `Result::Record`, defined outside the sources.
"Wraps its raw status code into a structured result (success/failure + code),
without throwing for expected failure codes; the caller inspects the result." -/
def Result.Record (hr : HRESULT) : Result := { Code := hr }

/-- The class `EffectScalarVariable`: the field `m_Pointer` set by both
constructors (EffectScalarVariable.cpp, lines 34-44). -/
structure EffectScalarVariable (σ : Type) (F : Type) where
  m_Pointer : ID3D10EffectScalarVariable σ F

namespace EffectScalarVariable

variable {σ F : Type}

/-- The method `Set( bool value )`:
`return Result::Record( m_Pointer->SetBool( value ) );`
(EffectScalarVariable.cpp, lines 46-49). -/
def Set_bool (v : EffectScalarVariable σ F) (native : σ) (value : Bool) : Result × σ :=
  let r := v.m_Pointer.SetBool native value
  (Result.Record r.1, r.2)

/-- The method `Set( float value )`:
`return Result::Record( m_Pointer->SetFloat( value ) );`
(EffectScalarVariable.cpp, lines 51-54). -/
def Set_float (v : EffectScalarVariable σ F) (native : σ) (value : F) : Result × σ :=
  let r := v.m_Pointer.SetFloat native value
  (Result.Record r.1, r.2)

/-- The method `Set( int value )`:
`return Result::Record( m_Pointer->SetInt( value ) );`
(EffectScalarVariable.cpp, lines 56-59). -/
def Set_int (v : EffectScalarVariable σ F) (native : σ) (value : Int) : Result × σ :=
  let r := v.m_Pointer.SetInt native value
  (Result.Record r.1, r.2)

end EffectScalarVariable

/-- One call of a native setter, with its argument. -/
inductive NativeCall (F : Type) where
  | SetBool (value : Bool)
  | SetFloat (value : F)
  | SetInt (value : Int)
  deriving DecidableEq, Repr

/-- A simulated native variable.  Its state is the list of the calls made so
far; each entry point appends its call and answers with `status` of the call. -/
def simulated {F : Type} (status : NativeCall F → HRESULT) :
    ID3D10EffectScalarVariable (List (NativeCall F)) F where
  SetBool := fun calls value => (status (.SetBool value), calls ++ [.SetBool value])
  SetFloat := fun calls value => (status (.SetFloat value), calls ++ [.SetFloat value])
  SetInt := fun calls value => (status (.SetInt value), calls ++ [.SetInt value])

end Direct3D10

end SlimDX

/-! ## Sample objects -/

namespace SlimDX

/-- Memory that holds the byte 0 everywhere. -/
def zeroMemory : Memory := fun _ => 0

/-- The value class of 16-bit unsigned values: two bytes, low byte first. -/
def ushortClass : ValueClass (Fin 65536) where
  sizeOf := 2
  raw := fun v => [Fin.ofNat (v.val % 256), Fin.ofNat (v.val / 256)]
  raw_length := fun _ => rfl

/-- A simulated native variable that rejects `SetInt` with `E_FAIL` and accepts
every other call with `S_OK`. -/
def sampleStatus : Direct3D10.NativeCall Nat → Direct3D10.HRESULT
  | .SetInt _ => -2147467259
  | _ => 0

end SlimDX

/-! ## Lemmas on machine values and raw memory -/

namespace SlimDX

theorem wrapInt64_of_range (x : Int) (hlo : Int64.MinValue ≤ x)
    (hhi : x ≤ Int64.MaxValue) : wrapInt64 x = x := by
  unfold Int64.MinValue at hlo
  unfold Int64.MaxValue at hhi
  unfold wrapInt64
  omega

theorem wrapInt64_range (x : Int) :
    Int64.MinValue ≤ wrapInt64 x ∧ wrapInt64 x ≤ Int64.MaxValue := by
  unfold Int64.MinValue Int64.MaxValue wrapInt64
  omega

/-- A copy leaves every address outside `[dst, dst + src.length)` as it was. -/
theorem copyBytes_outside (src : List Byte) :
    ∀ (mem : Memory) (dst a : Int),
      (a < dst ∨ dst + (src.length : Int) ≤ a) → copyBytes mem dst src a = mem a := by
  induction src with
  | nil => intro mem dst a _; rfl
  | cons x xs ih =>
    intro mem dst a h
    have hlen : (((x :: xs).length : Nat) : Int) = (xs.length : Int) + 1 := by
      simp
    rw [hlen] at h
    have hne : a ≠ dst := by omega
    show copyBytes (Function.update mem dst x) (dst + 1) xs a = mem a
    rw [ih (Function.update mem dst x) (dst + 1) a (by omega)]
    exact Function.update_noteq hne x mem

/-- A copy puts the byte number `k` of the source at the address `dst + k`. -/
theorem copyBytes_inside (src : List Byte) :
    ∀ (mem : Memory) (dst : Int) (k : Nat) (x : Byte),
      src[k]? = some x → copyBytes mem dst src (dst + (k : Int)) = x := by
  induction src with
  | nil => intro mem dst k x h; simp at h
  | cons y ys ih =>
    intro mem dst k x h
    show copyBytes (Function.update mem dst y) (dst + 1) ys (dst + (k : Int)) = x
    cases k with
    | zero =>
      have hxy : y = x := by simpa using h
      have haddr : dst + ((0 : Nat) : Int) = dst := by simp
      rw [haddr, copyBytes_outside ys (Function.update mem dst y) (dst + 1) dst (by left; omega),
        hxy]
      exact Function.update_same dst x mem
    | succ k =>
      have hk : ys[k]? = some x := by simpa using h
      have := ih (Function.update mem dst y) (dst + 1) k x hk
      have haddr : dst + ((k + 1 : Nat) : Int) = dst + 1 + (k : Int) := by
        push_cast; ring
      rw [haddr]
      exact this

/-- The concatenated raw representations hold byte `j` of element `i` at the
index `sizeOf * i + j`. -/
theorem flatten_raw_getElem? {T : Type} (vt : ValueClass T) (run : List T) :
    ∀ (i j : Nat) (v : T) (x : Byte),
      run[i]? = some v → (vt.raw v)[j]? = some x →
      ((run.map vt.raw).flatten)[vt.sizeOf * i + j]? = some x := by
  induction run with
  | nil => intro i j v x h; simp at h
  | cons w ws ih =>
    intro i j v x hv hx
    have hj : j < (vt.raw v).length := by
      rcases List.getElem?_eq_some_iff.mp hx with ⟨h, _⟩
      exact h
    rw [vt.raw_length v] at hj
    simp only [List.map_cons, List.flatten_cons]
    cases i with
    | zero =>
      have hwv : w = v := by simpa using hv
      subst hwv
      rw [List.getElem?_append_left (by rw [vt.raw_length w]; omega)]
      simpa using hx
    | succ i =>
      have hv' : ws[i]? = some v := by simpa using hv
      have hge : (vt.raw w).length ≤ vt.sizeOf * (i + 1) + j := by
        rw [vt.raw_length w, Nat.mul_succ]; omega
      rw [List.getElem?_append_right hge]
      have hidx : vt.sizeOf * (i + 1) + j - (vt.raw w).length = vt.sizeOf * i + j := by
        rw [vt.raw_length w, Nat.mul_succ]; omega
      rw [hidx]
      exact ih i j v x hv' hx

end SlimDX

/-! ## The stream: unsupported members, `Read`, `Position`, `Seek` -/

namespace SlimDX

/-- C2. In every stream state and for every `Int64` value `v`, `Flush()`,
`SetLength(v)` and the `Length` getter fail with `NotSupportedException`, and
none of them returns normally. -/
theorem GraphicsStream.unsupported_members_throw (s : GraphicsStream) (v : Int) :
    s.Flush = .error .NotSupportedException ∧
    s.SetLength v = .error .NotSupportedException ∧
    s.Length = .error .NotSupportedException ∧
    (∀ r, s.Flush ≠ .ok r) ∧ (∀ r, s.SetLength v ≠ .ok r) ∧ (∀ r, s.Length ≠ .ok r) := by
  refine ⟨rfl, rfl, rfl, ?_, ?_, ?_⟩ <;> intro r h <;> cases h

/-- C3. In every stream state (also when `CanRead` is true) and for every
destination array, offset and count, `Read` returns 0 and leaves the stream
(so its cursor, its capability flags and its memory) and the destination array
as they were. -/
theorem GraphicsStream.Read_returns_zero (s : GraphicsStream) (buffer : List Byte)
    (offset count : Int) :
    (s.Read buffer offset count).1 = 0 ∧
    (s.Read buffer offset count).2.1 = buffer ∧
    (s.Read buffer offset count).2.2 = s ∧
    (s.Read buffer offset count).2.2.Position_get = s.Position_get ∧
    (s.Read buffer offset count).2.2.CanRead = s.CanRead ∧
    (s.Read buffer offset count).2.2.CanWrite = s.CanWrite :=
  ⟨rfl, rfl, rfl, rfl, rfl, rfl⟩

/-- C4. Setting `Position` to `x` gives the stream, or the exception, that
`Seek(x, SeekOrigin::Begin)` gives, and the `Position` getter then returns the
cursor of the stream that `Seek` produced. -/
theorem GraphicsStream.Position_set_eq_Seek_Begin (s : GraphicsStream) (x : Int) :
    s.Position_set x = (s.Seek x .Begin).map (fun r => ((), r.2)) ∧
    (s.Position_set x).map (fun r => r.2.Position_get)
      = (s.Seek x .Begin).map (fun r => r.2.m_Position) := by
  unfold GraphicsStream.Position_set
  cases s.Seek x .Begin with
  | error e => exact ⟨rfl, rfl⟩
  | ok r => exact ⟨rfl, rfl⟩

/-- C5. For every `Int64` offset `n` (every offset within the bounds of a buffer
is one), `Seek(0, Begin)` followed by `Seek(n, Current)` returns `n` and leaves
the stream that `Seek(n, Begin)` returns and leaves: the cursor is `n`, and the
memory is the memory before the calls. -/
theorem GraphicsStream.Seek_Begin_then_Current (s : GraphicsStream) (n : Int)
    (hlo : Int64.MinValue ≤ n) (hhi : n ≤ Int64.MaxValue) :
    ∃ s0 s1 : GraphicsStream,
      s.Seek 0 .Begin = .ok (0, s0) ∧
      s0.Seek n .Current = .ok (n, s1) ∧
      s.Seek n .Begin = .ok (n, s1) ∧
      s1.Position_get = n ∧
      s0.m_Buffer = s.m_Buffer ∧ s1.m_Buffer = s.m_Buffer := by
  refine ⟨{ s with m_Position := 0 }, { s with m_Position := n }, rfl, ?_, rfl, rfl, rfl, rfl⟩
  have hwrap : wrapInt64 (0 + n) = n := by
    rw [Int.zero_add]; exact wrapInt64_of_range n hlo hhi
  simp only [GraphicsStream.Seek, hwrap]

/-- Witness of C5 for the offset 5 on a fresh stream. -/
theorem GraphicsStream.Seek_Begin_then_Current_witness :
    (Int64.MinValue ≤ 5 ∧ (5 : Int) ≤ Int64.MaxValue) ∧
    ∃ s0 s1 : GraphicsStream,
      (GraphicsStream.ctor zeroMemory true true).Seek 0 .Begin = .ok (0, s0) ∧
      s0.Seek 5 .Current = .ok (5, s1) ∧
      (GraphicsStream.ctor zeroMemory true true).Seek 5 .Begin = .ok (5, s1) ∧
      s1.Position_get = 5 ∧
      s0.m_Buffer = (GraphicsStream.ctor zeroMemory true true).m_Buffer ∧
      s1.m_Buffer = (GraphicsStream.ctor zeroMemory true true).m_Buffer :=
  ⟨⟨by decide, by decide⟩,
    GraphicsStream.Seek_Begin_then_Current (GraphicsStream.ctor zeroMemory true true) 5
      (by decide) (by decide)⟩

/-- C7. In every stream state and for every `Int64` offset,
`Seek(offset, SeekOrigin::End)` fails with `NotSupportedException`. -/
theorem GraphicsStream.Seek_End_throws (s : GraphicsStream) (offset : Int) :
    s.Seek offset .End = .error .NotSupportedException ∧
    ∀ r, s.Seek offset .End ≠ .ok r := by
  refine ⟨rfl, ?_⟩
  intro r h
  cases h

end SlimDX

/-! ## The stream: writes -/

namespace SlimDX

/-- C1. On an open writable stream with cursor `p`, for a byte array `b` and
`offset`, `count` with `0 ≤ offset`, `offset + count ≤ b.Length` and the region
`[p, p + count)` inside the backing buffer (a buffer of `capacity` bytes, a
size that is an `Int64`; a region has `0 ≤ count`), `Write(b, offset, count)`
leaves the memory holding `b[offset + i]` at `p + i` for every `i < count`,
leaves every byte outside `[p, p + count)` as it was, and leaves `Position`
equal to `p + count`. -/
theorem GraphicsStream.Write_copies_and_advances (s : GraphicsStream) (b : List Byte)
    (offset count capacity : Int)
    (_hopen : s.closed = false) (_hwritable : s.CanWrite = true)
    (hoffset : 0 ≤ offset) (hcount : 0 ≤ count) (hsrc : offset + count ≤ b.length)
    (hp : 0 ≤ s.m_Position) (hregion : s.m_Position + count ≤ capacity)
    (hcap : capacity ≤ Int64.MaxValue) :
    (∀ i : Nat, (i : Int) < count →
      b[offset.toNat + i]? = some ((s.Write b offset count).m_Buffer (s.m_Position + i))) ∧
    (∀ a : Int, (a < s.m_Position ∨ s.m_Position + count ≤ a) →
      (s.Write b offset count).m_Buffer a = s.m_Buffer a) ∧
    (s.Write b offset count).Position_get = s.m_Position + count := by
  have hlen : (((b.drop offset.toNat).take count.toNat).length : Int) = count := by
    rw [List.length_take, List.length_drop]
    omega
  refine ⟨?_, ?_, ?_⟩
  · intro i hi
    have hidx : offset.toNat + i < b.length := by omega
    have hget : ((b.drop offset.toNat).take count.toNat)[i]? = some b[offset.toNat + i] := by
      rw [List.getElem?_take_of_lt (by omega), List.getElem?_drop,
        List.getElem?_eq_getElem hidx]
    rw [List.getElem?_eq_getElem hidx]
    exact congrArg some (copyBytes_inside _ s.m_Buffer s.m_Position i _ hget).symm
  · intro a ha
    show copyBytes s.m_Buffer s.m_Position _ a = s.m_Buffer a
    apply copyBytes_outside
    rw [hlen]
    exact ha
  · show wrapInt64 (s.m_Position + count) = s.m_Position + count
    apply wrapInt64_of_range
    · unfold Int64.MinValue; omega
    · omega

/-- Witness of C1: two bytes of a four-byte array, written at the cursor 0 of a
fresh writable stream over a buffer of 16 bytes. -/
theorem GraphicsStream.Write_copies_and_advances_witness :
    ((0 : Int) ≤ 1 ∧ (0 : Int) ≤ 2 ∧ (1 : Int) + 2 ≤ ([10, 20, 30, 40] : List Byte).length ∧
      (16 : Int) ≤ Int64.MaxValue) ∧
    (∀ i : Nat, (i : Int) < 2 →
      ([10, 20, 30, 40] : List Byte)[(1 : Int).toNat + i]? =
        some (((GraphicsStream.ctor zeroMemory false true).Write [10, 20, 30, 40] 1 2).m_Buffer
          ((GraphicsStream.ctor zeroMemory false true).m_Position + i))) ∧
    (∀ a : Int, (a < (GraphicsStream.ctor zeroMemory false true).m_Position ∨
        (GraphicsStream.ctor zeroMemory false true).m_Position + 2 ≤ a) →
      ((GraphicsStream.ctor zeroMemory false true).Write [10, 20, 30, 40] 1 2).m_Buffer a
        = (GraphicsStream.ctor zeroMemory false true).m_Buffer a) ∧
    ((GraphicsStream.ctor zeroMemory false true).Write [10, 20, 30, 40] 1 2).Position_get
      = (GraphicsStream.ctor zeroMemory false true).m_Position + 2 :=
  ⟨⟨by decide, by decide, by decide, by decide⟩,
    GraphicsStream.Write_copies_and_advances (GraphicsStream.ctor zeroMemory false true)
      [10, 20, 30, 40] 1 2 16 rfl rfl (by decide) (by decide) (by decide) (by decide)
      (by decide) (by decide)⟩

/-- C9. On an open writable stream with cursor `p` and for a value class `T`:
`Write<T>(value)` leaves the cursor at `p + sizeof(T)`; and
`Write<T>(data, startIndex, count)` with `0 ≤ startIndex` and
`startIndex + count ≤ data.Length` leaves the raw representation of
`data[startIndex + i]` at `p + sizeof(T) * i` for every `i < count` and the
cursor at `p + sizeof(T) * count`.  The cursor is an `Int64`, so each sum is the
64-bit sum; it is the exact sum whenever the exact sum is an `Int64`. -/
theorem GraphicsStream.Write_typed_advances {T : Type} (vt : ValueClass T)
    (s : GraphicsStream) (value : T) (data : List T) (startIndex count : Int)
    (_hopen : s.closed = false) (_hwritable : s.CanWrite = true)
    (hstart : 0 ≤ startIndex) (hrun : startIndex + count ≤ data.length) :
    (s.Write_value vt value).Position_get = wrapInt64 (s.m_Position + vt.sizeOf) ∧
    (Int64.MinValue ≤ s.m_Position + vt.sizeOf → s.m_Position + vt.sizeOf ≤ Int64.MaxValue →
      (s.Write_value vt value).Position_get = s.m_Position + vt.sizeOf) ∧
    (∀ i : Nat, (i : Int) < count → ∃ v : T, data[startIndex.toNat + i]? = some v ∧
      ∀ j : Nat, j < vt.sizeOf →
        (vt.raw v)[j]? = some ((s.Write_range vt data startIndex count).m_Buffer
          (s.m_Position + vt.sizeOf * i + j))) ∧
    (s.Write_range vt data startIndex count).Position_get
      = wrapInt64 (s.m_Position + vt.sizeOf * count) ∧
    (Int64.MinValue ≤ s.m_Position + vt.sizeOf * count →
      s.m_Position + vt.sizeOf * count ≤ Int64.MaxValue →
      (s.Write_range vt data startIndex count).Position_get
        = s.m_Position + vt.sizeOf * count) := by
  refine ⟨rfl, ?_, ?_, rfl, ?_⟩
  · intro hlo hhi
    exact wrapInt64_of_range _ hlo hhi
  · intro i hi
    have hidx : startIndex.toNat + i < data.length := by omega
    refine ⟨data[startIndex.toNat + i], List.getElem?_eq_getElem hidx, ?_⟩
    intro j hj
    have hjlen : j < (vt.raw data[startIndex.toNat + i]).length := by
      rw [vt.raw_length]; exact hj
    have hrunget : ((data.drop startIndex.toNat).take count.toNat)[i]?
        = some data[startIndex.toNat + i] := by
      rw [List.getElem?_take_of_lt (by omega), List.getElem?_drop,
        List.getElem?_eq_getElem hidx]
    have hflat := flatten_raw_getElem? vt ((data.drop startIndex.toNat).take count.toNat)
      i j data[startIndex.toNat + i] (vt.raw data[startIndex.toNat + i])[j] hrunget
      (List.getElem?_eq_getElem hjlen)
    have hcopy := copyBytes_inside _ s.m_Buffer s.m_Position (vt.sizeOf * i + j) _ hflat
    have haddr : s.m_Position + (vt.sizeOf : Int) * (i : Int) + (j : Int)
        = s.m_Position + ((vt.sizeOf * i + j : Nat) : Int) := by
      push_cast; ring
    rw [List.getElem?_eq_getElem hjlen, haddr]
    exact congrArg some hcopy.symm
  · intro hlo hhi
    exact wrapInt64_of_range _ hlo hhi

/-- Witness of C9: 16-bit values written to a fresh writable stream. -/
theorem GraphicsStream.Write_typed_advances_witness :
    ((0 : Int) ≤ 1 ∧ (1 : Int) + 2 ≤ ([258, 772, 1286] : List (Fin 65536)).length) ∧
    ((GraphicsStream.ctor zeroMemory false true).Write_value ushortClass 258).Position_get = 2 ∧
    ((GraphicsStream.ctor zeroMemory false true).Write_range ushortClass
      [258, 772, 1286] 1 2).Position_get = 4 ∧
    (∃ v : Fin 65536, ([258, 772, 1286] : List (Fin 65536))[(1 : Int).toNat + 1]? = some v ∧
      ∀ j : Nat, j < ushortClass.sizeOf →
        (ushortClass.raw v)[j]? = some (((GraphicsStream.ctor zeroMemory false true).Write_range
          ushortClass [258, 772, 1286] 1 2).m_Buffer
            ((GraphicsStream.ctor zeroMemory false true).m_Position
              + ushortClass.sizeOf * (1 : Nat) + j))) :=
  have h := GraphicsStream.Write_typed_advances ushortClass
    (GraphicsStream.ctor zeroMemory false true) 258 [258, 772, 1286] 1 2 rfl rfl
    (by decide) (by decide)
  ⟨⟨by decide, by decide⟩, h.2.1 (by decide) (by decide), h.2.2.2.2 (by decide) (by decide),
    h.2.2.1 1 (by decide)⟩

/-- C10. In every stream state and for every array `data` of a value class,
the whole-array `Write<T>(data)` leaves the stream (cursor and memory) that
`Write<T>(data, 0, 0)` leaves: it is the three-argument write called with
`startIndex` 0 and `count` 0. -/
theorem GraphicsStream.Write_data_eq_Write_range_zero {T : Type} (vt : ValueClass T)
    (s : GraphicsStream) (data : List T) :
    s.Write_data vt data = s.Write_range vt data 0 0 ∧
    (s.Write_data vt data).Position_get = (s.Write_range vt data 0 0).Position_get ∧
    (s.Write_data vt data).m_Buffer = (s.Write_range vt data 0 0).m_Buffer :=
  ⟨rfl, rfl, rfl⟩

/-- The whole-array write of a non-empty array is not the write of all its
elements: on a fresh stream, `Write<T>(data)` leaves the cursor at 0 and the
memory untouched, where `Write<T>(data, 0, data.Length)` moves the cursor to 2
and stores the bytes of the value. -/
theorem GraphicsStream.Write_data_writes_nothing :
    ((GraphicsStream.ctor zeroMemory false true).Write_data ushortClass [258]).Position_get = 0 ∧
    ((GraphicsStream.ctor zeroMemory false true).Write_data ushortClass [258]).m_Buffer 0 = 0 ∧
    ((GraphicsStream.ctor zeroMemory false true).Write_range ushortClass [258] 0 1).Position_get
      = 2 ∧
    ((GraphicsStream.ctor zeroMemory false true).Write_range ushortClass [258] 0 1).m_Buffer 0
      = 2 := by
  refine ⟨by decide, by decide, by decide, by decide⟩

end SlimDX

/-! ## The stream: capability flags -/

namespace SlimDX

/-- No call changes the fields `m_CanRead` and `m_CanWrite`. -/
theorem GraphicsStream.exec_flags (s : GraphicsStream) (op : GraphicsStream.Op) :
    (s.exec op).m_CanRead = s.m_CanRead ∧ (s.exec op).m_CanWrite = s.m_CanWrite := by
  cases op with
  | Seek offset origin => cases origin <;> exact ⟨rfl, rfl⟩
  | _ => exact ⟨rfl, rfl⟩

/-- No sequence of calls changes the fields `m_CanRead` and `m_CanWrite`. -/
theorem GraphicsStream.run_flags (ops : List GraphicsStream.Op) :
    ∀ s : GraphicsStream,
      (s.run ops).m_CanRead = s.m_CanRead ∧ (s.run ops).m_CanWrite = s.m_CanWrite := by
  induction ops with
  | nil => intro s; exact ⟨rfl, rfl⟩
  | cons op ops ih =>
    intro s
    have hstep := GraphicsStream.exec_flags s op
    have hrest := ih (s.exec op)
    show ((s.exec op).run ops).m_CanRead = s.m_CanRead ∧
      ((s.exec op).run ops).m_CanWrite = s.m_CanWrite
    exact ⟨hrest.1.trans hstep.1, hrest.2.trans hstep.2⟩

/-- C6. For every buffer and all booleans `r` and `w`, a stream constructed with
`canRead = r` and `canWrite = w` reports `CanRead = r` and `CanWrite = w`, and
reports the same after every sequence of calls of its members (`Seek`, the
writes, `Read`, `Position`, `Close` and the others). -/
theorem GraphicsStream.capability_flags_fixed (buffer : Memory) (r w : Bool)
    (ops : List GraphicsStream.Op) :
    (GraphicsStream.ctor buffer r w).CanRead = r ∧
    (GraphicsStream.ctor buffer r w).CanWrite = w ∧
    ((GraphicsStream.ctor buffer r w).run ops).CanRead = r ∧
    ((GraphicsStream.ctor buffer r w).run ops).CanWrite = w :=
  ⟨rfl, rfl, (GraphicsStream.run_flags ops (GraphicsStream.ctor buffer r w)).1,
    (GraphicsStream.run_flags ops (GraphicsStream.ctor buffer r w)).2⟩

end SlimDX

/-! ## The effect variable -/

namespace SlimDX.Direct3D10

/-- C8. For every effect variable, every state of the native effect and every
`bool`, `float` and `int` value, `Set(value)` is one call of the matching
native setter with that value: it returns `Result::Record` of the status code
of that call and leaves the native state that call leaves; on the simulated
native variable exactly one call, the matching one with that value, is added
to the calls made.  Hence the success flag is the flag of the native status,
and two values for which the native call returns the same status give the
same result. -/
theorem EffectScalarVariable.Set_records_native_status {σ F : Type}
    (v : EffectScalarVariable σ F) (native : σ) (b : Bool) (f : F) (i : Int)
    (status : NativeCall F → HRESULT) (calls : List (NativeCall F)) :
    (v.Set_bool native b = (Result.Record (v.m_Pointer.SetBool native b).1,
        (v.m_Pointer.SetBool native b).2) ∧
      v.Set_float native f = (Result.Record (v.m_Pointer.SetFloat native f).1,
        (v.m_Pointer.SetFloat native f).2) ∧
      v.Set_int native i = (Result.Record (v.m_Pointer.SetInt native i).1,
        (v.m_Pointer.SetInt native i).2)) ∧
    ((EffectScalarVariable.mk (simulated status)).Set_bool calls b
        = (Result.Record (status (.SetBool b)), calls ++ [.SetBool b]) ∧
      (EffectScalarVariable.mk (simulated status)).Set_float calls f
        = (Result.Record (status (.SetFloat f)), calls ++ [.SetFloat f]) ∧
      (EffectScalarVariable.mk (simulated status)).Set_int calls i
        = (Result.Record (status (.SetInt i)), calls ++ [.SetInt i])) ∧
    ((v.Set_bool native b).1.IsSuccess = decide (0 ≤ (v.m_Pointer.SetBool native b).1) ∧
      (v.Set_float native f).1.IsSuccess = decide (0 ≤ (v.m_Pointer.SetFloat native f).1) ∧
      (v.Set_int native i).1.IsSuccess = decide (0 ≤ (v.m_Pointer.SetInt native i).1)) ∧
    ((∀ b2 : Bool, (v.m_Pointer.SetBool native b).1 = (v.m_Pointer.SetBool native b2).1 →
        (v.Set_bool native b).1 = (v.Set_bool native b2).1) ∧
      (∀ f2 : F, (v.m_Pointer.SetFloat native f).1 = (v.m_Pointer.SetFloat native f2).1 →
        (v.Set_float native f).1 = (v.Set_float native f2).1) ∧
      (∀ i2 : Int, (v.m_Pointer.SetInt native i).1 = (v.m_Pointer.SetInt native i2).1 →
        (v.Set_int native i).1 = (v.Set_int native i2).1)) := by
  refine ⟨⟨rfl, rfl, rfl⟩, ⟨rfl, rfl, rfl⟩, ⟨rfl, rfl, rfl⟩, ?_, ?_, ?_⟩
  · intro b2 h
    show Result.Record _ = Result.Record _
    rw [h]
  · intro f2 h
    show Result.Record _ = Result.Record _
    rw [h]
  · intro i2 h
    show Result.Record _ = Result.Record _
    rw [h]

/-- Witness of C8 on the simulated native variable: `Set(true)`, `Set` of the
`float` with bit pattern `0x4048F5C3` and `Set(-7)`; the `int` setter fails,
also for the value 3. -/
theorem EffectScalarVariable.Set_records_native_status_witness :
    ((EffectScalarVariable.mk (simulated sampleStatus)).Set_bool [] true).1.IsSuccess = true ∧
    ((EffectScalarVariable.mk (simulated sampleStatus)).Set_bool [] true).1
      = ((EffectScalarVariable.mk (simulated sampleStatus)).Set_bool [] false).1 ∧
    ((EffectScalarVariable.mk (simulated sampleStatus)).Set_float [] 1078523331).2
      = [.SetFloat 1078523331] ∧
    ((EffectScalarVariable.mk (simulated sampleStatus)).Set_int [] (-7)).1.IsSuccess = false ∧
    ((EffectScalarVariable.mk (simulated sampleStatus)).Set_int [] (-7)).1
      = ((EffectScalarVariable.mk (simulated sampleStatus)).Set_int [] 3).1 :=
  have h := EffectScalarVariable.Set_records_native_status
    (EffectScalarVariable.mk (simulated sampleStatus)) [] true 1078523331 (-7) sampleStatus []
  ⟨h.2.2.1.1.trans (by decide), h.2.2.2.1 false (by decide),
    congrArg Prod.snd h.2.1.2.1, h.2.2.1.2.2.trans (by decide), h.2.2.2.2.2 3 (by decide)⟩

end SlimDX.Direct3D10
